import Mathlib

/-!
Verification of the conversation-session state machine of the AIASSISTANT
repository: a shallow embedding of `src/components/ChatInterface.tsx` and
`src/lib/personas.ts`, together with theorems about the persona registry,
session creation, the submit handler, its error handling, and the
one-in-flight-request invariant of the UI step relation.
-/

namespace AIAssistant

/-- Role of a stored transcript message: the `Message` interface in
`ChatInterface.tsx` allows only `"user" | "assistant"`. -/
inductive Role where
  | user
  | assistant
  deriving DecidableEq, Repr

/-- A transcript entry, mirroring `interface Message { role; content }`. -/
structure Message where
  role : Role
  content : String
  deriving DecidableEq, Repr

/-- Role of a message inside the outbound request payload; the payload may
additionally carry a `"system"` message. -/
inductive ReqRole where
  | system
  | user
  | assistant
  deriving DecidableEq, Repr

/-- A message of the outbound JSON payload. -/
structure ReqMessage where
  role : ReqRole
  content : String
  deriving DecidableEq, Repr

/-- Injection of transcript roles into payload roles. -/
def Role.toReqRole : Role → ReqRole
  | .user => .user
  | .assistant => .assistant

/-- A transcript message serialized into the payload, as done by spreading
`...messages` into the `messages` array of the request body. -/
def Message.toReqMessage (m : Message) : ReqMessage :=
  ⟨m.role.toReqRole, m.content⟩

/-- Mirror of `interface PersonaType` from `src/lib/personas.ts`. -/
structure PersonaType where
  id : String
  name : String
  description : String
  icon : String
  prompt : String
  initialQuestion : String
  deriving DecidableEq, Repr

/-- Persona record "content-alchemist" from the `personas` array in `src/lib/personas.ts`. -/
def content_alchemist : PersonaType where
  id := "content-alchemist"
  name := "Content Alchemist"
  description := "Strategic content planning expert"
  icon := "⚗️"
  prompt := "Act as a seasoned content strategist with 15 years of experience crafting high-impact content strategies for [business niche]. I aim to create an exceptional content strategy tailored to [target audience description] with the goal of [goal]. Start by asking me: 1. What are the most pressing challenges or desires of your audience? 2. What tone, style, or brand personality do you want reflected in the content? 3. Are there competitors whose content resonates with you? If so, what do you admire about their approach? 4. What platforms are you currently active on, and are there any you\x27d like to expand into? 5. Do you have existing data or insights on content performance that we can build upon? Using this information, deliver: 1. A list of 10 high-impact hooks tailored to the audience\x27s psychographics. 2. A 30-day content calendar with post ideas for [content type], detailing themes and recommended posting times. 3. Suggestions for storytelling formats or campaigns designed to foster engagement and loyalty. 4. Actionable calls-to-action aligned with the goal of [goal]. 5. Optimization techniques specific to the target platform\x27s algorithm, while ensuring content authenticity."
  initialQuestion := "What are the most pressing challenges or desires of your target audience?"

/-- Persona record "pitch-polisher" from the `personas` array in `src/lib/personas.ts`. -/
def pitch_polisher : PersonaType where
  id := "pitch-polisher"
  name := "Pitch Polisher"
  description := "Craft compelling pitches"
  icon := "💎"
  prompt := "Act as an expert sales consultant with a strong background in crafting pitches that close deals and overcome objections. I need to refine this pitch: \x27[raw pitch or outline]\x27 to achieve [sales goal]. Start by asking: 1. What pain points or needs are your audience most focused on? 2. How do you differentiate from competitors in this space? 3. What tone do you prefer—formal, conversational, or something else? 4. Are there any objections you frequently encounter that you\x27d like addressed? 5. What outcome would you consider a successful pitch? Once you have this context, craft: 1. A revised pitch that emphasizes outcomes and benefits, with a clear value proposition. 2. Responses to anticipated objections, incorporating empathy and logic. 3. A compelling opening that grabs attention and a strong, actionable closing statement. 4. Suggestions for incorporating testimonials, case studies, or success stories into the pitch. 5. A suggested follow-up strategy to keep the audience engaged after the pitch."
  initialQuestion := "What pain points or needs are your target audience most focused on?"

/-- Persona record "hooksmith" from the `personas` array in `src/lib/personas.ts`. -/
def hooksmith : PersonaType where
  id := "hooksmith"
  name := "Hooksmith"
  description := "Create attention-grabbing hooks"
  icon := "🎣"
  prompt := "Act as a creative consultant and expert in direct-response marketing. I need 15 engaging hooks for [topic], targeting [target audience], to achieve [desired outcome]. Start by asking: 1. What emotions do you want to evoke (e.g., curiosity, excitement, urgency)? 2. Are there any specific pain points or desires we should highlight? 3. What medium will these hooks be used in (e.g., video, social posts, email)? 4. Do you have any brand-specific language or themes that must be included? 5. Are there existing hooks or approaches that have worked well for you or others in your industry? Based on this, create: 1. 15 hooks that incorporate curiosity, surprise, or controversy to grab attention. 2. Variations in tone, such as emotional, controversial, or narrative-driven hooks. 3. Suggestions for adapting these hooks to specific platforms or formats. 4. Feedback on how to A/B test these hooks to determine what resonates most with your audience. 5. Additional ideas for follow-up content or actions after the hooks are deployed."
  initialQuestion := "What emotions do you want to evoke with your hooks (e.g., curiosity, excitement, urgency)?"

/-- Persona record "dream-client" from the `personas` array in `src/lib/personas.ts`. -/
def dream_client : PersonaType where
  id := "dream-client"
  name := "Dream Client Whisperer"
  description := "Master audience psychology"
  icon := "🎯"
  prompt := "Act as a marketing psychologist and strategist skilled in developing messaging that deeply resonates with target audiences. Help me refine the messaging for [business or product description] targeting [audience profile]. Start by asking: 1. What are your audience\x27s biggest frustrations or aspirations? 2. What is your current value proposition, and how do you differentiate it? 3. What feedback, if any, have you received about your messaging? 4. Are there segments within your audience that need tailored approaches? 5. What are your primary channels for communicating with this audience? Based on your answers, provide: 1. A psychographic analysis of your audience using the FRED framework (Fears, Results, Expectations, and Desires). 2. Messaging strategies to address core motivations and objections. 3. Specific language and phrases that resonate with this audience. 4. Segmentation advice with examples of personalized messaging for each subgroup. 5. A step-by-step action plan to craft content that connects emotionally and drives results."
  initialQuestion := "What are your audience\x27s biggest frustrations or aspirations?"

/-- Persona record "authority-amplifier" from the `personas` array in `src/lib/personas.ts`. -/
def authority_amplifier : PersonaType where
  id := "authority-amplifier"
  name := "Authority Amplifier"
  description := "Build thought leadership"
  icon := "👑"
  prompt := "Act as an authority-building consultant with expertise in helping individuals in [niche or industry] establish themselves as trusted experts. I want to achieve [desired outcomes]. Start by asking: 1. What specific expertise or experiences set you apart in your field? 2. Who is your ideal audience, and what do they value most in a thought leader? 3. Do you have existing content, testimonials, or case studies to leverage? 4. What platforms or networks do you currently use, and which would you like to expand into? 5. How would you define success in building your authority? Using this context, deliver: 1. A gap analysis identifying unique content opportunities where you can add value. 2. A list of 10 content ideas that showcase your expertise and foster trust. 3. A storytelling framework leveraging personal anecdotes, testimonials, and case studies. 4. Strategies for signaling authority through partnerships, awards, or collaborations. 5. Platform-specific advice for amplifying your visibility and achieving [desired outcomes]."
  initialQuestion := "What specific expertise or experiences set you apart in your field?"

/-- The persona registry: the `personas` array of `src/lib/personas.ts`. -/
def personas : List PersonaType :=
  [content_alchemist, pitch_polisher, hooksmith, dream_client, authority_amplifier]

/-- The standalone `hooksmith` PersonaType record from the unnamed persona
module (`src/unnamed/part_000`). -/
def hooksmithModule : PersonaType where
  id := "hooksmith"
  name := "Hooksmith"
  description := "Create attention-grabbing hooks"
  icon := "🎣"
  prompt := "You are a viral marketing strategist and copywriting expert. Your goal is to help create attention-grabbing hooks for social media content. Focus heavily on negativity bias, fear of missing out, and pain points to create compelling hooks that drive engagement.\n\nKeep responses in plain text format without special formatting. Use bullet points (•) for lists and add line breaks between sections for readability.\n\nHook Examples By Platform:\n\nInstagram Hooks (Reels, Carousels, Captions, Threads):\n• Why your 2025 strategy is already failing (and what to do about it)\n• The brutal truth: Your [niche] approach is costing you thousands\n• 5 devastating mistakes killing your [goal] in 2025\n• Your competitors are laughing at your outdated [strategy]\n• Stop wasting time on [common practice]—it\x27s dead in 2025\n\nYouTube Hooks (Shorts and Longform Scripts):\n• The uncomfortable truth about [industry] in 2025\n• Your [strategy] is sabotaging your success—here\x27s the proof\n• Why 90% of [audience] will fail in 2025\n• The real reason your [efforts] aren\x27t working (and it\x27s worse than you think)\n• This fatal mistake is destroying your [results]\n\nTikTok Hooks (Scripts):\n• POV: You\x27re still using this failed 2024 strategy\n• Red flag: Your [approach] is making you look amateur\n• Warning: This \"expert advice\" is ruining your chances\n• The scary truth about AI taking over [industry] in 2025\n• You\x27re hemorrhaging money with this outdated method\n\nTwitter/X Hooks (Threads and Single Tweets):\n• Harsh reality: Your 2025 strategy is already obsolete\n• The biggest lie in [industry] is costing you everything\n• Your [strategy] screams \"amateur\"—here\x27s why\n• Stop embarrassing yourself with these rookie mistakes\n• Warning: This \"trending hack\" is destroying your credibility\n\nPsychological Triggers to Emphasize:\n\nFear of Missing Out (FOMO):\n• While you hesitate, your competitors are already using this\n• The hidden opportunity you\x27re missing in 2025\n• Your ignorance of [trend] is costing you daily\n\nFear of Failure:\n• Why your current approach guarantees failure in 2025\n• The uncomfortable truth about your [strategy]\n• Your [method] is a ticking time bomb—here\x27s why\n\nLoss Aversion:\n• You\x27re bleeding money with this outdated approach\n• Stop throwing away opportunities with this fatal mistake\n• Your [strategy] is actively repelling success\n\nPush-the-Limits Examples:\n\nOriginal: Your strategy needs updating\nPushed: Your \"strategy\" is an embarrassing disaster waiting to happen\n\nOriginal: You\x27re making mistakes\nPushed: Your approach screams \"I don\x27t know what I\x27m doing\"\n\nRemember to:\n1. Focus heavily on pain points and negative consequences\n2. Use words like \"failing,\" \"mistake,\" \"disaster,\" \"fatal,\" \"destroying\"\n3. Emphasize urgency and the cost of inaction\n4. Point out how current methods are outdated or ineffective\n5. Highlight what the audience is losing or missing out on"
  initialQuestion := "What would you like to create hooks for? Let me know about your target audience, desired outcome, and preferred platforms (Instagram, TikTok, YouTube, or Twitter/X)."


/-- The browser `localStorage` key-value store, process-wide. -/
abbrev Store : Type := String → Option String

/-- `localStorage.getItem(key)`: `none` models JavaScript `null`. -/
def Store.getItem (st : Store) (key : String) : Option String :=
  st key

/-- `localStorage.setItem(key, value)`. -/
def Store.setItem (st : Store) (key value : String) : Store :=
  fun k => if k = key then some value else st k

/-- A store with nothing saved. -/
def Store.empty : Store := fun _ => none

/-- The fixed key under which the credential is persisted:
`localStorage.setItem('openai_api_key', apiKey)`. -/
def apiKeyStorageKey : String := "openai_api_key"

/-- Model of JavaScript `String.prototype.trim()`: strip leading and
trailing whitespace. Defined structurally over the character list so that it
fully reduces during kernel evaluation. -/
def jsTrim (s : String) : String :=
  ⟨((s.data.dropWhile Char.isWhitespace).reverse.dropWhile Char.isWhitespace).reverse⟩

/-- The React state of one `ChatInterface` component instance, i.e. one
conversation session: `messages`, `input`, `isLoading`, `apiKey`,
`showApiKeyInput`, plus the fixed `persona` prop. -/
structure SessionState where
  persona : PersonaType
  messages : List Message
  input : String
  isLoading : Bool
  apiKey : String
  showApiKeyInput : Bool
  deriving DecidableEq, Repr

/-- Initial `useState` values of `ChatInterface`: the transcript is seeded
with the persona opening question as a single assistant turn, `input` empty,
`isLoading` false, `apiKey` empty, and the key-entry form shown. -/
def sessionCreate (persona : PersonaType) : SessionState where
  persona := persona
  messages := [{ role := .assistant, content := persona.initialQuestion }]
  input := ""
  isLoading := false
  apiKey := ""
  showApiKeyInput := true

/-- The mount-time effect: read `openai_api_key` from `localStorage`; if a
truthy value is saved, set `apiKey` to it and hide the key-entry form. -/
def mountLoadKey (st : Store) (s : SessionState) : SessionState :=
  match st.getItem apiKeyStorageKey with
  | some savedApiKey =>
      if savedApiKey = "" then s
      else { s with apiKey := savedApiKey, showApiKeyInput := false }
  | none => s

/-- A freshly created session in a runtime whose store is `st`: the initial
state followed by the mount-time key load. -/
def sessionInit (st : Store) (persona : PersonaType) : SessionState :=
  mountLoadKey st (sessionCreate persona)

/-- The single outbound request built by `handleSubmit`: an HTTP POST to the
chat-completions endpoint with the authorization header and JSON body fields
`model` and `messages`. -/
structure ChatRequest where
  url : String
  httpMethod : String
  contentType : String
  authorization : String
  model : String
  messages : List ReqMessage
  deriving DecidableEq, Repr

/-- A thrown JavaScript value as seen by the `catch` block: either an
`Error` instance carrying a message, or any non-`Error` value. -/
inductive JsError where
  | error (msg : String)
  | nonError
  deriving DecidableEq, Repr

/-- Outcome of the awaited exchange with the completion service, as far as
`handleSubmit` can observe it:
`responded ok errMessage content` is a response whose `ok` flag, parsed
`error.message` field (for the non-ok branch) and parsed
`choices[0].message.content` field (for the ok branch) are as given;
`thrown e` is a rejection of `fetch` itself or of `response.json()`
(network failure, malformed body). -/
inductive UpstreamResult where
  | responded (ok : Bool) (errMessage : Option String) (content : Option String)
  | thrown (e : JsError)
  deriving DecidableEq, Repr

/-- An upstream result counts as a failure unless it is a 2xx response whose
body carries the reply path `choices[0].message.content`. -/
def UpstreamResult.isFailure : UpstreamResult → Bool
  | .responded true _ (some _) => false
  | _ => true

/-- Result of the synchronous prefix of `handleSubmit` (everything before the
`await fetch`): either an early `return` (empty trimmed input, or missing API
key — the latter with an error toast), or the state after appending the user
message, clearing the input and raising `isLoading`, together with the one
request that is issued. -/
inductive SubmitStart where
  | rejectedEmptyInput
  | rejectedNoApiKey
  | started (s2 : SessionState) (req : ChatRequest)
  deriving DecidableEq, Repr

/-- Synchronous prefix of `handleSubmit`, mirroring the source line by line:
`if (!input.trim()) return;` then `if (!apiKey) { toast.error(…); return; }`
then append the user message, clear the input, set `isLoading`, and build the
`fetch` call (whose payload spreads the pre-append `messages` closure value
followed by `userMessage`). -/
def handleSubmitStart (s : SessionState) : SubmitStart :=
  if jsTrim s.input = "" then .rejectedEmptyInput
  else if s.apiKey = "" then .rejectedNoApiKey
  else
    let userMessage : Message := { role := .user, content := s.input }
    let s2 : SessionState :=
      { s with messages := s.messages ++ [userMessage], input := "", isLoading := true }
    let req : ChatRequest :=
      { url := "https://api.openai.com/v1/chat/completions"
        httpMethod := "POST"
        contentType := "application/json"
        authorization := "Bearer " ++ s.apiKey
        model := "gpt-4"
        messages :=
          { role := .system, content := s.persona.prompt } ::
            (s.messages.map Message.toReqMessage ++ [userMessage.toReqMessage]) }
    .started s2 req

/-- The generic message thrown for a non-2xx response whose body has no
`error.message`: `errorData.error?.message || 'Failed to get response'`. -/
def httpFailureFallbackMessage : String := "Failed to get response"

/-- The message shown when the `catch` block receives a non-`Error` value:
`"Failed to get response. Please try again."`. -/
def nonErrorFallbackMessage : String := "Failed to get response. Please try again."

/-- The toast shown when the prior request is missing the API key:
`toast.error("Please enter your OpenAI API key first")`. -/
def missingKeyMessage : String := "Please enter your OpenAI API key first"

/-- Resumption of `handleSubmit` after the awaited exchange, mirroring the
`try`/`catch`/`finally` of the source. `pathErrMsg` is the message of the
`TypeError` the runtime raises when `data.choices[0].message.content` is read
off a success body lacking that path (its text is engine-defined). Returns the
new state and the error toast, if one is shown. On any path `finally` clears
`isLoading`; only the success path appends an assistant message. -/
def handleSubmitFinish (pathErrMsg : String) (s : SessionState) (r : UpstreamResult) :
    SessionState × Option String :=
  match r with
  | .responded ok errMessage content =>
      if ok then
        match content with
        | some c =>
            ({ s with messages := s.messages ++ [{ role := .assistant, content := c }],
                      isLoading := false }, none)
        | none => ({ s with isLoading := false }, some pathErrMsg)
      else
        let msg := match errMessage with
          | some m => if m = "" then httpFailureFallbackMessage else m
          | none => httpFailureFallbackMessage
        ({ s with isLoading := false }, some msg)
  | .thrown e =>
      match e with
      | .error m => ({ s with isLoading := false }, some m)
      | .nonError => ({ s with isLoading := false }, some nonErrorFallbackMessage)

/-- One complete run of `handleSubmit` against a given upstream result:
the synchronous prefix followed, when a request was issued, by the response
handling. Returns the final state, the list of requests issued during the
call, and the error toast, if any. -/
def handleSubmit (pathErrMsg : String) (s : SessionState) (r : UpstreamResult) :
    SessionState × List ChatRequest × Option String :=
  match handleSubmitStart s with
  | .rejectedEmptyInput => (s, [], none)
  | .rejectedNoApiKey => (s, [], some missingKeyMessage)
  | .started s2 req =>
      let fin := handleSubmitFinish pathErrMsg s2 r
      (fin.1, [req], fin.2)

/-- The `handleApiKeySubmit` handler: if the entered key is non-empty after
trimming, persist it under the fixed storage key and hide the key-entry form;
otherwise do nothing. Returns the updated store and state. -/
def handleApiKeySubmit (st : Store) (s : SessionState) : Store × SessionState :=
  if jsTrim s.apiKey = "" then (st, s)
  else (st.setItem apiKeyStorageKey s.apiKey, { s with showApiKeyInput := false })

/-- A full UI state of one mounted `ChatInterface`: the process-wide store,
the component state, and the outbound requests currently awaited. -/
structure UiState where
  store : Store
  session : SessionState
  inFlight : List ChatRequest

/-- One user- or network-triggered transition of the mounted component. A
submit can only fire through the send form, which is rendered only in the
chat view and whose button is disabled while a request is pending or the
trimmed input is empty (`disabled={isLoading || !input.trim()}`); the
save-key form is rendered only in the key-entry view and its button is
disabled while the trimmed key is empty (`disabled={!apiKey.trim()}`). The
resolution of the awaited exchange applies `handleSubmitFinish` and retires
the in-flight request. -/
inductive UiStep : UiState → UiState → Prop where
  | typeInput (u : UiState) (text : String)
      (hview : u.session.showApiKeyInput = false) :
      UiStep u { u with session := { u.session with input := text } }
  | clickSend (u : UiState) (s2 : SessionState) (req : ChatRequest)
      (hview : u.session.showApiKeyInput = false)
      (hload : u.session.isLoading = false)
      (hinput : jsTrim u.session.input ≠ "")
      (hstart : handleSubmitStart u.session = .started s2 req) :
      UiStep u { u with session := s2, inFlight := u.inFlight ++ [req] }
  | clickSendNoKey (u : UiState)
      (hview : u.session.showApiKeyInput = false)
      (hload : u.session.isLoading = false)
      (hinput : jsTrim u.session.input ≠ "")
      (hstart : handleSubmitStart u.session = .rejectedNoApiKey) :
      UiStep u u
  | typeApiKey (u : UiState) (text : String)
      (hview : u.session.showApiKeyInput = true) :
      UiStep u { u with session := { u.session with apiKey := text } }
  | saveApiKey (u : UiState)
      (hview : u.session.showApiKeyInput = true)
      (hkey : jsTrim u.session.apiKey ≠ "") :
      UiStep u { u with store := (handleApiKeySubmit u.store u.session).1,
                        session := (handleApiKeySubmit u.store u.session).2 }
  | upstreamReturns (u : UiState) (pathErrMsg : String) (r : UpstreamResult)
      (req : ChatRequest) (rest : List ChatRequest)
      (hflight : u.inFlight = req :: rest) :
      UiStep u { u with session := (handleSubmitFinish pathErrMsg u.session r).1,
                        inFlight := rest }

/-- States reachable from a freshly mounted session, over any store and any
persona. -/
inductive UiReachable : UiState → Prop where
  | init (st : Store) (p : PersonaType) :
      UiReachable { store := st, session := sessionInit st p, inFlight := [] }
  | step {u u2 : UiState} : UiReachable u → UiStep u u2 → UiReachable u2

/-- The mount-time key load never touches the transcript, input or pending
flag, and keeps the persona. -/
theorem mountLoadKey_fields (st : Store) (s : SessionState) :
    (mountLoadKey st s).messages = s.messages ∧
      (mountLoadKey st s).isLoading = s.isLoading ∧
      (mountLoadKey st s).input = s.input ∧
      (mountLoadKey st s).persona = s.persona := by
  unfold mountLoadKey
  rcases st.getItem apiKeyStorageKey with _ | k
  · exact ⟨rfl, rfl, rfl, rfl⟩
  · by_cases hk : k = "" <;> simp [hk]

/-- Characterization of a successful start: the guards held, the state after
the synchronous prefix appended exactly the user turn, cleared the input and
raised the pending flag, and the request has the fixed endpoint, method,
headers, model and payload. -/
theorem handleSubmitStart_started_eq {s s2 : SessionState} {req : ChatRequest}
    (h : handleSubmitStart s = .started s2 req) :
    jsTrim s.input ≠ "" ∧ s.apiKey ≠ "" ∧
    s2 = { s with messages := s.messages ++ [{ role := Role.user, content := s.input }],
                  input := "", isLoading := true } ∧
    req = { url := "https://api.openai.com/v1/chat/completions"
            httpMethod := "POST"
            contentType := "application/json"
            authorization := "Bearer " ++ s.apiKey
            model := "gpt-4"
            messages := { role := ReqRole.system, content := s.persona.prompt } ::
              (s.messages.map Message.toReqMessage ++
                [{ role := ReqRole.user, content := s.input }]) } := by
  unfold handleSubmitStart at h
  by_cases h1 : jsTrim s.input = "" <;> simp [h1] at h
  by_cases h2 : s.apiKey = "" <;> simp [h2] at h
  exact ⟨h1, h2, h.1.symm, h.2.symm⟩

/-- The response handling always clears the pending flag, never touches the
input, key, persona or view flag, and either leaves the transcript unchanged
or appends a single assistant turn. -/
theorem handleSubmitFinish_fields (p : String) (s : SessionState) (r : UpstreamResult) :
    (handleSubmitFinish p s r).1.isLoading = false ∧
      (handleSubmitFinish p s r).1.input = s.input ∧
      (handleSubmitFinish p s r).1.apiKey = s.apiKey ∧
      (handleSubmitFinish p s r).1.persona = s.persona ∧
      (handleSubmitFinish p s r).1.showApiKeyInput = s.showApiKeyInput ∧
      ((handleSubmitFinish p s r).1.messages = s.messages ∨
        ∃ c : String, (handleSubmitFinish p s r).1.messages =
            s.messages ++ [{ role := Role.assistant, content := c }]) := by
  unfold handleSubmitFinish
  rcases r with ⟨ok, em, co⟩ | e
  · cases ok
    · rcases em with _ | m <;> simp
    · rcases co with _ | c <;> simp
  · rcases e with m | _ <;> simp

/-- Saving the key never touches the transcript, input, pending flag, key or
persona of the session. -/
theorem handleApiKeySubmit_fields (st : Store) (s : SessionState) :
    (handleApiKeySubmit st s).2.messages = s.messages ∧
      (handleApiKeySubmit st s).2.isLoading = s.isLoading ∧
      (handleApiKeySubmit st s).2.input = s.input ∧
      (handleApiKeySubmit st s).2.apiKey = s.apiKey ∧
      (handleApiKeySubmit st s).2.persona = s.persona := by
  unfold handleApiKeySubmit
  by_cases hk : jsTrim s.apiKey = "" <;> simp [hk]

/-- Invariant of the UI step relation: the number of in-flight requests is
one exactly while `isLoading` is raised, and zero otherwise. -/
theorem inFlight_length_invariant (u : UiState) (h : UiReachable u) :
    u.inFlight.length = if u.session.isLoading then 1 else 0 := by
  induction h with
  | init st p =>
      have hf := mountLoadKey_fields st (sessionCreate p)
      show (0 : Nat) = _
      rw [show (sessionInit st p) = mountLoadKey st (sessionCreate p) from rfl, hf.2.1]
      simp [sessionCreate]
  | step hr hstep ih =>
      rename_i u u2
      cases hstep with
      | typeInput text hview => simpa using ih
      | clickSend s2 req hview hload hinput hstart =>
          obtain ⟨_, _, hs2, _⟩ := handleSubmitStart_started_eq hstart
          subst hs2
          simp [hload] at ih
          simp [ih]
      | clickSendNoKey hview hload hinput hstart => exact ih
      | typeApiKey text hview => simpa using ih
      | saveApiKey hview hkey =>
          have hf := handleApiKeySubmit_fields u.store u.session
          simpa [hf.2.1] using ih
      | upstreamReturns pathErrMsg r req rest hflight =>
          have hfin := handleSubmitFinish_fields pathErrMsg u.session r
          rw [hflight] at ih
          by_cases hl : u.session.isLoading
          · simp [hl] at ih
            simp [hfin.1, ih]
          · simp [hl] at ih

/-- Transcript roles never serialize to the system payload role. -/
theorem toReqRole_ne_system (r : Role) : r.toReqRole ≠ ReqRole.system := by
  cases r <;> simp [Role.toReqRole]

/-- Computation of `handleSubmit` once both guards pass: the response handler
runs on the state with the appended user turn, and the one built request is
issued. -/
theorem handleSubmit_accepted (p : String) (s : SessionState) (r : UpstreamResult)
    (hinput : jsTrim s.input ≠ "") (hkey : s.apiKey ≠ "") :
    handleSubmit p s r =
      ((handleSubmitFinish p
          { s with messages := s.messages ++ [{ role := Role.user, content := s.input }],
                   input := "", isLoading := true } r).1,
       [{ url := "https://api.openai.com/v1/chat/completions"
          httpMethod := "POST"
          contentType := "application/json"
          authorization := "Bearer " ++ s.apiKey
          model := "gpt-4"
          messages := { role := ReqRole.system, content := s.persona.prompt } ::
            (s.messages.map Message.toReqMessage ++
              [{ role := ReqRole.user, content := s.input }]) }],
       (handleSubmitFinish p
          { s with messages := s.messages ++ [{ role := Role.user, content := s.input }],
                   input := "", isLoading := true } r).2) := by
  unfold handleSubmit handleSubmitStart
  simp [hinput, hkey, Message.toReqMessage, Role.toReqRole]

/-- The response handler on a 2xx result carrying a reply appends exactly the
assistant turn and clears the pending flag, with no toast. -/
theorem handleSubmitFinish_success (p : String) (s : SessionState) (em : Option String)
    (c : String) :
    handleSubmitFinish p s (.responded true em (some c)) =
      ({ s with messages := s.messages ++ [{ role := Role.assistant, content := c }],
                isLoading := false }, none) := rfl

/-- On any failing upstream result the response handler leaves the transcript
untouched and shows some toast. -/
theorem handleSubmitFinish_failure (p : String) (s : SessionState) (r : UpstreamResult)
    (hfail : r.isFailure = true) :
    (handleSubmitFinish p s r).1.messages = s.messages ∧
      ((handleSubmitFinish p s r).2).isSome = true := by
  unfold handleSubmitFinish
  rcases r with ⟨ok, em, co⟩ | e
  · cases ok
    · rcases em with _ | m
      · simp
      · by_cases hm : m = "" <;> simp [hm]
    · rcases co with _ | c
      · simp
      · simp [UpstreamResult.isFailure] at hfail
  · rcases e with m | _ <;> simp

/-- A non-2xx response with a non-empty `error.message` surfaces exactly that
message. -/
theorem handleSubmitFinish_http_msg (p : String) (s : SessionState) (m : String)
    (co : Option String) (hm : m ≠ "") :
    (handleSubmitFinish p s (.responded false (some m) co)).2 = some m := by
  simp [handleSubmitFinish, hm]

/-- A non-2xx response without an `error.message` surfaces the fallback
message of the `throw`. -/
theorem handleSubmitFinish_http_nomsg (p : String) (s : SessionState) (co : Option String) :
    (handleSubmitFinish p s (.responded false none co)).2 =
      some httpFailureFallbackMessage := rfl

/-- A concrete session for the closed witnesses: the hooksmith persona with
its seeded transcript, the typed input "Hello" and a saved key. -/
def exampleSession : SessionState where
  persona := hooksmith
  messages := [{ role := .assistant, content := hooksmith.initialQuestion }]
  input := "Hello"
  isLoading := false
  apiKey := "sk-test"
  showApiKeyInput := false

/-- Computation of the synchronous prefix once both guards pass. -/
theorem handleSubmitStart_accepted (s : SessionState)
    (hinput : jsTrim s.input ≠ "") (hkey : s.apiKey ≠ "") :
    handleSubmitStart s = .started
      { s with messages := s.messages ++ [{ role := Role.user, content := s.input }],
               input := "", isLoading := true }
      { url := "https://api.openai.com/v1/chat/completions"
        httpMethod := "POST"
        contentType := "application/json"
        authorization := "Bearer " ++ s.apiKey
        model := "gpt-4"
        messages := { role := ReqRole.system, content := s.persona.prompt } ::
          (s.messages.map Message.toReqMessage ++
            [{ role := ReqRole.user, content := s.input }]) } := by
  unfold handleSubmitStart
  simp [hinput, hkey, Message.toReqMessage, Role.toReqRole]

/-- C6: creating a session from a persona P yields a transcript of length
exactly 1 whose sole entry is the assistant turn carrying P's opening
question, and the pending flag is false in the created state. -/
theorem create_seeds_opening_question (p : PersonaType) :
    (sessionCreate p).messages = [{ role := Role.assistant, content := p.initialQuestion }] ∧
      (sessionCreate p).messages.length = 1 ∧
      (sessionCreate p).isLoading = false :=
  ⟨rfl, rfl, rfl⟩

/-- C8: in the persona registry, ids are pairwise distinct: any two records
at distinct positions of the `personas` sequence have different `id`
fields. -/
theorem persona_ids_unique :
    List.Pairwise (fun a b => a.id ≠ b.id) personas := by decide

/-- C5: a submit whose text is empty after trimming, or issued with no
credential set, issues no request and leaves the session state — transcript,
its length, and pending flag included — exactly as it was. -/
theorem rejected_submit_no_effect (pathErrMsg : String) (s : SessionState) (r : UpstreamResult)
    (h : jsTrim s.input = "" ∨ s.apiKey = "") :
    (handleSubmit pathErrMsg s r).1 = s ∧ (handleSubmit pathErrMsg s r).2.1 = [] := by
  unfold handleSubmit handleSubmitStart
  rcases h with h | h
  · simp [h]
  · by_cases h1 : jsTrim s.input = "" <;> simp [h1, h]

/-- C4: an accepted submit appends exactly one user turn with the submitted
text immediately (already in the state handed to the awaited request), and on
a successful upstream reply `c` appends exactly one assistant turn with
content `c`, clears the pending flag, and grows the transcript by exactly
two turns. -/
theorem accepted_submit_success_appends (pathErrMsg : String) (s : SessionState)
    (em : Option String) (c : String)
    (hinput : jsTrim s.input ≠ "") (hkey : s.apiKey ≠ "") :
    (∃ req, handleSubmitStart s = .started
        { s with messages := s.messages ++ [{ role := Role.user, content := s.input }],
                 input := "", isLoading := true } req) ∧
      (handleSubmit pathErrMsg s (.responded true em (some c))).1.messages =
        s.messages ++ [{ role := Role.user, content := s.input },
                       { role := Role.assistant, content := c }] ∧
      (handleSubmit pathErrMsg s (.responded true em (some c))).1.isLoading = false ∧
      (handleSubmit pathErrMsg s (.responded true em (some c))).1.messages.length =
        s.messages.length + 2 := by
  refine ⟨⟨_, handleSubmitStart_accepted s hinput hkey⟩, ?_, ?_, ?_⟩
  · rw [handleSubmit_accepted pathErrMsg s _ hinput hkey,
      handleSubmitFinish_success]
    simp
  · rw [handleSubmit_accepted pathErrMsg s _ hinput hkey, handleSubmitFinish_success]
  · rw [handleSubmit_accepted pathErrMsg s _ hinput hkey, handleSubmitFinish_success]
    simp

/-- C10: a rejected submit leaves the input buffer unchanged; an accepted
submit clears it to the empty string already in the state produced before
the request resolves, and it stays empty after the exchange whatever the
upstream outcome. -/
theorem input_buffer_discipline (pathErrMsg : String) (s : SessionState) (r : UpstreamResult) :
    ((jsTrim s.input = "" ∨ s.apiKey = "") →
        (handleSubmit pathErrMsg s r).1.input = s.input) ∧
      (jsTrim s.input ≠ "" → s.apiKey ≠ "" →
        (∃ req, handleSubmitStart s = .started
            { s with messages := s.messages ++ [{ role := Role.user, content := s.input }],
                     input := "", isLoading := true } req) ∧
          (handleSubmit pathErrMsg s r).1.input = "") := by
  constructor
  · intro h
    unfold handleSubmit handleSubmitStart
    rcases h with h | h
    · simp [h]
    · by_cases h1 : jsTrim s.input = "" <;> simp [h1, h]
  · intro hinput hkey
    refine ⟨⟨_, handleSubmitStart_accepted s hinput hkey⟩, ?_⟩
    rw [handleSubmit_accepted pathErrMsg s r hinput hkey]
    exact (handleSubmitFinish_fields pathErrMsg _ r).2.1

/-- C7: saving a credential writes it under the fixed storage key, and every
session created afterwards against the resulting store starts with that
credential set and the key-entry form hidden — no re-entry needed. -/
theorem credential_roundtrip (st : Store) (s : SessionState)
    (hkey : jsTrim s.apiKey ≠ "") :
    ((handleApiKeySubmit st s).1).getItem apiKeyStorageKey = some s.apiKey ∧
      ∀ p : PersonaType,
        (sessionInit (handleApiKeySubmit st s).1 p).apiKey = s.apiKey ∧
        (sessionInit (handleApiKeySubmit st s).1 p).showApiKeyInput = false := by
  have hne : s.apiKey ≠ "" := by
    intro h
    apply hkey
    rw [h]
    rfl
  constructor
  · unfold handleApiKeySubmit
    simp [hkey, Store.getItem, Store.setItem]
  · intro p
    unfold handleApiKeySubmit sessionInit mountLoadKey
    simp [hkey, Store.getItem, Store.setItem, hne]

/-- C2: on an accepted submit whose upstream exchange fails — non-2xx
response, thrown network or parse error, or a 2xx body lacking the reply
path — no assistant turn is appended (the transcript keeps exactly the
just-appended user turn), the pending flag is cleared, some error toast is
surfaced, and for a non-2xx body carrying a non-empty `error.message` the
toast is exactly that upstream message, with the fixed fallback text when
the body carries none. -/
theorem failed_submit_behavior (pathErrMsg : String) (s : SessionState) (r : UpstreamResult)
    (hinput : jsTrim s.input ≠ "") (hkey : s.apiKey ≠ "") (hfail : r.isFailure = true) :
    (handleSubmit pathErrMsg s r).1.messages =
        s.messages ++ [{ role := Role.user, content := s.input }] ∧
      (handleSubmit pathErrMsg s r).1.isLoading = false ∧
      ((handleSubmit pathErrMsg s r).2.2).isSome = true ∧
      (∀ m co, r = .responded false (some m) co → m ≠ "" →
        (handleSubmit pathErrMsg s r).2.2 = some m) ∧
      (∀ co, r = .responded false none co →
        (handleSubmit pathErrMsg s r).2.2 = some httpFailureFallbackMessage) := by
  rw [handleSubmit_accepted pathErrMsg s r hinput hkey]
  refine ⟨?_, ?_, ?_, ?_, ?_⟩
  · exact (handleSubmitFinish_failure pathErrMsg _ r hfail).1
  · exact (handleSubmitFinish_fields pathErrMsg _ r).1
  · exact (handleSubmitFinish_failure pathErrMsg _ r hfail).2
  · rintro m co rfl hm
    exact handleSubmitFinish_http_msg pathErrMsg
      { s with messages := s.messages ++ [{ role := Role.user, content := s.input }],
               input := "", isLoading := true } m co hm
  · rintro co rfl
    exact handleSubmitFinish_http_nomsg pathErrMsg
      { s with messages := s.messages ++ [{ role := Role.user, content := s.input }],
               input := "", isLoading := true } co

/-- C3: an accepted submit issues exactly one request — an HTTP POST to the
completions endpoint with the bearer credential, the fixed model identifier,
and a payload whose messages are the persona system prompt followed by the
full transcript in chronological order including the just-appended user
turn — and after a successful first exchange the single request of a second
accepted submit carries every turn of the first exchange. -/
theorem accepted_submit_request_payload (pathErrMsg : String) (s : SessionState)
    (r : UpstreamResult) (hinput : jsTrim s.input ≠ "") (hkey : s.apiKey ≠ "") :
    (handleSubmit pathErrMsg s r).2.1 =
      [{ url := "https://api.openai.com/v1/chat/completions"
         httpMethod := "POST"
         contentType := "application/json"
         authorization := "Bearer " ++ s.apiKey
         model := "gpt-4"
         messages := { role := ReqRole.system, content := s.persona.prompt } ::
           (s.messages ++ ([{ role := Role.user, content := s.input }] : List Message)).map
             Message.toReqMessage }] ∧
      ∀ text2 c r2, jsTrim text2 ≠ "" →
        (handleSubmit pathErrMsg
            { (handleSubmit pathErrMsg s (.responded true none (some c))).1 with
                input := text2 } r2).2.1 =
          [{ url := "https://api.openai.com/v1/chat/completions"
             httpMethod := "POST"
             contentType := "application/json"
             authorization := "Bearer " ++ s.apiKey
             model := "gpt-4"
             messages := { role := ReqRole.system, content := s.persona.prompt } ::
               (s.messages ++ ([{ role := Role.user, content := s.input },
                                { role := Role.assistant, content := c },
                                { role := Role.user, content := text2 }] : List Message)).map
                 Message.toReqMessage }] ∧
        ∀ req2 ∈ (handleSubmit pathErrMsg
            { (handleSubmit pathErrMsg s (.responded true none (some c))).1 with
                input := text2 } r2).2.1,
          ∀ m ∈ s.messages ++ ([{ role := Role.user, content := s.input },
                                 { role := Role.assistant, content := c }] : List Message),
            m.toReqMessage ∈ req2.messages := by
  constructor
  · rw [handleSubmit_accepted pathErrMsg s r hinput hkey]
    simp [Message.toReqMessage, Role.toReqRole]
  · intro text2 c r2 ht2
    have hfirst :
        (handleSubmit pathErrMsg s (.responded true none (some c))).1 =
          { s with messages :=
              (s.messages ++ [{ role := Role.user, content := s.input }]) ++
                [{ role := Role.assistant, content := c }],
                   input := "", isLoading := false } := by
      rw [handleSubmit_accepted pathErrMsg s _ hinput hkey, handleSubmitFinish_success]
    have hsecond :
        ({ (handleSubmit pathErrMsg s (.responded true none (some c))).1 with
            input := text2 } : SessionState) =
          { s with messages :=
              (s.messages ++ [{ role := Role.user, content := s.input }]) ++
                [{ role := Role.assistant, content := c }],
                   input := text2, isLoading := false } := by
      rw [hfirst]
    rw [hsecond]
    rw [handleSubmit_accepted pathErrMsg
      { s with messages :=
          (s.messages ++ [{ role := Role.user, content := s.input }]) ++
            [{ role := Role.assistant, content := c }],
               input := text2, isLoading := false } r2 ht2 hkey]
    constructor
    · simp [Message.toReqMessage, Role.toReqRole, List.append_assoc]
    · intro req2 hreq2 m hm
      simp only [List.mem_singleton] at hreq2
      subst hreq2
      simp only [List.mem_cons]
      right
      rw [List.mem_append]
      left
      apply List.mem_map_of_mem
      simpa [List.append_assoc] using hm

/-- C1: every reachable UI state has at most one in-flight request, and from
a state whose pending flag is raised no step introduces a new outbound
request — a submit cannot start a second concurrent request for the
session. -/
theorem no_request_while_pending (u : UiState) (h : UiReachable u) :
    u.inFlight.length ≤ 1 ∧
      ∀ u2, UiStep u u2 → u.session.isLoading = true →
        ∀ req, req ∈ u2.inFlight → req ∈ u.inFlight := by
  constructor
  · rw [inFlight_length_invariant u h]
    split <;> simp
  · intro u2 hstep hload req hreq
    cases hstep with
    | typeInput text hview => simpa using hreq
    | clickSend s2 req2 hview hload2 hinput hstart => simp [hload] at hload2
    | clickSendNoKey hview hload2 hinput hstart => exact hreq
    | typeApiKey text hview => simpa using hreq
    | saveApiKey hview hkey => simpa using hreq
    | upstreamReturns pathErrMsg r req2 rest hflight =>
        rw [hflight]
        exact List.mem_cons_of_mem _ (by simpa using hreq)

/-- Every in-flight request of a reachable state has the system message at
the head of its payload and no system-role message anywhere in its tail. -/
theorem inFlight_payload_shape (u : UiState) (h : UiReachable u) :
    ∀ req ∈ u.inFlight,
      req.messages.head?.map ReqMessage.role = some ReqRole.system ∧
      ∀ rm ∈ req.messages.tail, rm.role ≠ ReqRole.system := by
  induction h with
  | init st p => simp
  | step hr hstep ih =>
      rename_i u u2
      cases hstep with
      | typeInput text hview => simpa using ih
      | clickSend s2 req hview hload hinput hstart =>
          obtain ⟨_, _, _, hreq⟩ := handleSubmitStart_started_eq hstart
          subst hreq
          intro q hq
          simp only [List.mem_append, List.mem_singleton] at hq
          rcases hq with hq | hq
          · exact ih q hq
          · subst hq
            refine ⟨rfl, ?_⟩
            intro rm hrm
            simp only [List.tail_cons, List.mem_append, List.mem_singleton] at hrm
            rcases hrm with hrm | hrm
            · obtain ⟨m, hm, rfl⟩ := List.mem_map.mp hrm
              exact toReqRole_ne_system m.role
            · subst hrm
              simp
      | clickSendNoKey hview hload hinput hstart => exact ih
      | typeApiKey text hview => simpa using ih
      | saveApiKey hview hkey => simpa using ih
      | upstreamReturns pathErrMsg r req rest hflight =>
          intro q hq
          refine ih q ?_
          rw [hflight]
          exact List.mem_cons_of_mem _ (by simpa using hq)

/-- C9: in every reachable state every stored transcript turn serializes to
a non-system payload role, and every in-flight request carries the system
prompt only as the head of its payload — it is never part of the transcript
section, and no operation ever appends a system turn to the transcript. -/
theorem transcript_never_system (u : UiState) (h : UiReachable u) :
    (∀ m ∈ u.session.messages, m.toReqMessage.role ≠ ReqRole.system) ∧
      ∀ req ∈ u.inFlight,
        req.messages.head?.map ReqMessage.role = some ReqRole.system ∧
        ∀ rm ∈ req.messages.tail, rm.role ≠ ReqRole.system :=
  ⟨fun m _ => toReqRole_ne_system m.role, inFlight_payload_shape u h⟩

/-- Closed instance of C1 at the freshly mounted hooksmith session. -/
theorem no_request_while_pending_witness :
    ({ store := Store.empty, session := sessionInit Store.empty hooksmith,
       inFlight := [] } : UiState).inFlight.length ≤ 1 :=
  (no_request_while_pending _ (UiReachable.init Store.empty hooksmith)).1

/-- Closed instance of C2: a 401-style body `{"error":{"message":"invalid
key"}}` surfaces exactly "invalid key", keeps the user turn, and clears the
pending flag. -/
theorem failed_submit_behavior_witness :
    (handleSubmit "TypeError" exampleSession
        (.responded false (some "invalid key") none)).2.2 = some "invalid key" ∧
      (handleSubmit "TypeError" exampleSession
          (.responded false (some "invalid key") none)).1.messages =
        exampleSession.messages ++ [{ role := Role.user, content := "Hello" }] ∧
      (handleSubmit "TypeError" exampleSession
          (.responded false (some "invalid key") none)).1.isLoading = false := by
  have h := failed_submit_behavior "TypeError" exampleSession
    (.responded false (some "invalid key") none) (by decide) (by decide) (by decide)
  exact ⟨h.2.2.2.1 "invalid key" none rfl (by decide), h.1, h.2.1⟩

/-- Closed instance of C3 at the example session. -/
theorem accepted_submit_request_payload_witness :
    (handleSubmit "TypeError" exampleSession
        (.responded true none (some "Hi there"))).2.1 =
      [{ url := "https://api.openai.com/v1/chat/completions"
         httpMethod := "POST"
         contentType := "application/json"
         authorization := "Bearer " ++ exampleSession.apiKey
         model := "gpt-4"
         messages := { role := ReqRole.system, content := exampleSession.persona.prompt } ::
           (exampleSession.messages ++
             ([{ role := Role.user, content := exampleSession.input }] : List Message)).map
             Message.toReqMessage }] :=
  (accepted_submit_request_payload "TypeError" exampleSession _ (by decide) (by decide)).1

/-- Closed instance of C4: submitting "Hello" and receiving "Hi there" grows
the transcript by the user and assistant turns. -/
theorem accepted_submit_success_appends_witness :
    (handleSubmit "TypeError" exampleSession
        (.responded true none (some "Hi there"))).1.messages =
        exampleSession.messages ++
          [{ role := Role.user, content := exampleSession.input },
           { role := Role.assistant, content := "Hi there" }] ∧
      (handleSubmit "TypeError" exampleSession
          (.responded true none (some "Hi there"))).1.messages.length =
        exampleSession.messages.length + 2 := by
  have h := accepted_submit_success_appends "TypeError" exampleSession none "Hi there"
    (by decide) (by decide)
  exact ⟨h.2.1, h.2.2.2⟩

/-- Closed instance of C5: a whitespace-only submit leaves the session state
untouched. -/
theorem rejected_submit_no_effect_witness :
    (handleSubmit "TypeError" { exampleSession with input := "   " }
        (.responded true none (some "Hi there"))).1 =
      { exampleSession with input := "   " } :=
  (rejected_submit_no_effect "TypeError" { exampleSession with input := "   " }
    _ (Or.inl (by decide))).1

/-- Closed instance of C7: saving "sk-test" persists it and a fresh
hooksmith session starts with it. -/
theorem credential_roundtrip_witness :
    ((handleApiKeySubmit Store.empty exampleSession).1).getItem apiKeyStorageKey =
        some "sk-test" ∧
      (sessionInit (handleApiKeySubmit Store.empty exampleSession).1 hooksmith).apiKey =
        "sk-test" := by
  have h := credential_roundtrip Store.empty exampleSession (by decide)
  exact ⟨h.1, (h.2 hooksmith).1⟩

/-- Closed instance of C9 at the freshly mounted hooksmith session. -/
theorem transcript_never_system_witness :
    ({ role := Role.assistant, content := hooksmith.initialQuestion } : Message).toReqMessage.role ≠
      ReqRole.system := by
  have h := transcript_never_system _ (UiReachable.init Store.empty hooksmith)
  exact h.1 _ (by decide)

/-- Closed instance of C10: after an accepted submit the input buffer is
empty. -/
theorem input_buffer_discipline_witness :
    (handleSubmit "TypeError" exampleSession
        (.responded true none (some "Hi there"))).1.input = "" := by
  have h := input_buffer_discipline "TypeError" exampleSession
    (.responded true none (some "Hi there"))
  exact (h.2 (by decide) (by decide)).2

end AIAssistant
